import Mathlib

/-!
Gołąb contact-form relay — verification of the admission pipeline.

Shallow embedding of the Gołąb contact-form API (TypeScript, Cloudflare
Workers) and proofs about its validator, content/identity filters,
authentication gate, rate-limit engine and request handler.

Sources embedded:
* `src/utils/validation.ts` — `contactFormSchema`, `validateContactForm`,
  `containsBannedWords`, `validateApiKey`, `extractEmailDomain`,
  `isEmailAllowed`;
* `src/utils/env-config.ts` — build-time limits (default deployment);
* `src/services/email.ts` (rate-limit section) — `UpstashRateLimitService`
  (`checkRateLimit`, `checkLimit`, `incrementCounters`, `incrementCounter`);
* `src/utils/attachments.ts` — `base64ByteLength`,
  `validateAndNormalizeAttachment` and friends;
* `src/handlers/contact.ts` — `handleContactSubmission`.

JavaScript strings are modelled as Lean `String` (lists of characters);
the sources only ever compare, trim, lower-case, split and search strings,
and all behaviour relevant to the claims is on ASCII data, where the
embedding below agrees with the JS semantics character for character.
-/

namespace Golab

/-- JS whitespace characters relevant to `String.prototype.trim` and `\s`
(space, tab, LF, VT, FF, CR); the sources only meet these ASCII ones. -/
def wsChar (c : Char) : Bool :=
  c = ' ' || c = '\t' || c = '\n' || c = '\x0b' || c = '\x0c' || c = '\r'

/-- Drop leading and trailing whitespace from a character list. -/
def trimChars (l : List Char) : List Char :=
  ((l.dropWhile wsChar).reverse.dropWhile wsChar).reverse

/-- JS `String.prototype.trim`. -/
def jsTrim (s : String) : String := ⟨trimChars s.data⟩

/-- JS `String.prototype.toLowerCase` (ASCII case mapping). -/
def jsToLower (s : String) : String := ⟨s.data.map Char.toLower⟩

/-- JS `String.prototype.split` with a single-character separator:
`"".split(c) = [""]`, separators delimit possibly empty pieces. -/
def splitOnChar (sep : Char) : List Char → List (List Char)
  | [] => [[]]
  | c :: cs =>
    if c = sep then [] :: splitOnChar sep cs
    else
      match splitOnChar sep cs with
      | [] => [[c]]
      | p :: ps => (c :: p) :: ps

/-- JS `String.prototype.includes`: substring containment. -/
def jsIncludes (hay needle : String) : Bool := decide (needle.data <:+: hay.data)

/-- One `{field, message}` entry of the `ValidationError[]` type
(`src/types.ts`). -/
structure VErr where
  field : String
  message : String
deriving Repr, DecidableEq

/-! ## Build-time configuration (`src/utils/env-config.ts`)

`parseEnvLimit` falls back to the defaults when no `BUILD_*` variable is
injected; we embed the default deployment. -/

def SUBJECT_MAX_LENGTH : Nat := 200
def MESSAGE_MIN_LENGTH : Nat := 10
def MESSAGE_MAX_LENGTH : Nat := 5000
def EMAIL_MAX_LENGTH : Nat := 320

/-! ## Validator (`contactFormSchema` / `validateContactForm`)

The zod schema is `z.strictObject` over `email`, `subject`, `message`.
A raw JSON body is modelled as the three recognised fields (absent or a
string) plus the list of unrecognised keys.  the zod e-mail format test
(`z.string().email()`) is library code external to the repository, so it is
a parameter `emailCheck` of the embedding.

zod runs the checks of a chain in order and collects every failing check;
`.trim()` sits *after* the `min`/`max` checks in both the `subject` and the
`message` chains, so the length checks see the untrimmed string and only
the returned value is trimmed. -/

structure RawInput where
  email : Option String
  subject : Option String
  message : Option String
  /-- Keys of the object other than `email`, `subject`, `message`. -/
  extraKeys : List String
deriving Repr

/-- Validated form data (`ContactFormData`). -/
structure ContactFormData where
  email : String
  subject : String
  message : String
deriving Repr, DecidableEq

inductive ValidationOutcome where
  | ok (data : ContactFormData)
  | fail (errors : List VErr)
deriving Repr, DecidableEq

def ValidationOutcome.isOk : ValidationOutcome → Bool
  | .ok _ => true
  | .fail _ => false

def ValidationOutcome.errors : ValidationOutcome → List VErr
  | .ok _ => []
  | .fail e => e

/-- Embeds `z.strictObject`: unknown keys produce one `unrecognized_keys` issue
(path `[]`, hence field `""`); zod lists the offending keys in the
message. -/
def strictErrs (extraKeys : List String) : List VErr :=
  if extraKeys.isEmpty then []
  else [⟨"", "Unrecognized key(s) in object: " ++ String.intercalate ", " extraKeys⟩]

/-- Embeds `email: z.string().min(1).email().max(EMAIL_MAX_LENGTH)`; an absent
field is the zod `invalid_type` issue with message `"Required"`. -/
def emailFieldErrs (emailCheck : String → Bool) : Option String → List VErr
  | none => [⟨"email", "Required"⟩]
  | some em =>
    (if em.length < 1 then [⟨"email", "Email is required"⟩] else []) ++
    (if emailCheck em then [] else [⟨"email", "Please provide a valid email address"⟩]) ++
    (if EMAIL_MAX_LENGTH < em.length then [⟨"email", "Email address is too long"⟩] else [])

/-- Embeds `subject: z.string().min(1).max(SUBJECT_MAX_LENGTH).trim()` — the
length checks run before the trim. -/
def subjectFieldErrs : Option String → List VErr
  | none => [⟨"subject", "Required"⟩]
  | some su =>
    (if su.length < 1 then [⟨"subject", "Subject is required"⟩] else []) ++
    (if SUBJECT_MAX_LENGTH < su.length then
      [⟨"subject", "Subject must be less than " ++ toString SUBJECT_MAX_LENGTH ++ " characters"⟩]
     else [])

/-- Embeds `message: z.string().min(1).min(MESSAGE_MIN_LENGTH).max(MESSAGE_MAX_LENGTH).trim()`. -/
def messageFieldErrs : Option String → List VErr
  | none => [⟨"message", "Required"⟩]
  | some me =>
    (if me.length < 1 then [⟨"message", "Message is required"⟩] else []) ++
    (if me.length < MESSAGE_MIN_LENGTH then
      [⟨"message", "Message must be at least " ++ toString MESSAGE_MIN_LENGTH ++ " characters long"⟩]
     else []) ++
    (if MESSAGE_MAX_LENGTH < me.length then
      [⟨"message", "Message must be less than " ++ toString MESSAGE_MAX_LENGTH ++ " characters"⟩]
     else [])

/-- Embeds `validateContactForm` (`src/utils/validation.ts`): parse against the
strict schema; on success return the parsed (trimmed) data, otherwise the
collected `{field, message}` list.  zod raises the `unrecognized_keys`
issue before the per-field issues. -/
def validateContactForm (emailCheck : String → Bool) (input : RawInput) : ValidationOutcome :=
  let errs := strictErrs input.extraKeys
      ++ emailFieldErrs emailCheck input.email
      ++ subjectFieldErrs input.subject
      ++ messageFieldErrs input.message
  match input.email, input.subject, input.message with
  | some em, some su, some me =>
    if errs.isEmpty then .ok ⟨em, jsTrim su, jsTrim me⟩ else .fail errs
  | _, _, _ => .fail errs

example :
    (validateContactForm (fun s => s = "a@b.co")
      ⟨some "a@b.co", some " hi ", some "0123456789", []⟩) =
      .ok ⟨"a@b.co", "hi", "0123456789"⟩ := by decide

example :
    (validateContactForm (fun s => s = "a@b.co")
      ⟨some "a@b.co", some "hi", some "012345678", []⟩).isOk = false := by decide

/-! ## Content filter (`containsBannedWords`) -/

/-- The banned-word parse inlined in `containsBannedWords`: split the env
value on `;`, trim and lower-case every entry, drop empty ones. -/
def parseBannedWords (env : String) : List String :=
  ((splitOnChar ';' env.data).map (fun w => jsToLower (jsTrim ⟨w⟩))).filter
    (fun w => 0 < w.length)

/-- Embeds `containsBannedWords` (`src/utils/validation.ts`): the env variable is a
semicolon-separated banned-word list (entries trimmed, lower-cased, empty
ones dropped); the sender address, subject and message are joined with
spaces, lower-cased, and searched for any banned word as a substring. -/
def containsBannedWords (data : ContactFormData) (bannedWordsEnv : Option String) : Bool :=
  match bannedWordsEnv with
  | none => false
  | some env =>
    if jsTrim env = "" then false
    else
      let bannedWords := parseBannedWords env
      if bannedWords.isEmpty then false
      else
        let contentToCheck :=
          jsToLower ⟨data.email.data ++ ' ' :: data.subject.data ++ ' ' :: data.message.data⟩
        bannedWords.any (fun w => jsIncludes contentToCheck w)

example : containsBannedWords ⟨"a@b.co", "hello SPAM now", "msg"⟩ (some "spam; viagra") = true := by
  decide

example : containsBannedWords ⟨"a@b.co", "hello", "msg"⟩ (some " ; ;") = false := by decide

/-! ## Authentication gate (`validateApiKey`) -/

structure ApiKeyValidation where
  isValid : Bool
  error : Option String := none
deriving Repr, DecidableEq

def apiKeyMissingMsg : String :=
  "API key is required. Please provide a valid API key in the X-API-Key header."

def apiKeyInvalidMsg : String :=
  "Invalid API key. Please provide a valid API key in the X-API-Key header."

/-- Embeds `validateApiKey` (`src/utils/validation.ts`).  `providedApiKey` is the
`X-API-Key` header (`none` = header absent = JS `null`); a missing or empty
(falsy) header yields the "required" error, a mismatching one the "invalid"
error.  An unset, empty or whitespace-only expected key skips the check. -/
def validateApiKey (providedApiKey : Option String) (expectedApiKey : Option String) :
    ApiKeyValidation :=
  match expectedApiKey with
  | none => ⟨true, none⟩
  | some expected =>
    if jsTrim expected = "" then ⟨true, none⟩
    else
      match providedApiKey with
      | none => ⟨false, some apiKeyMissingMsg⟩
      | some p =>
        if p = "" then ⟨false, some apiKeyMissingMsg⟩
        else if p ≠ expected then ⟨false, some apiKeyInvalidMsg⟩
        else ⟨true, none⟩

/-! ## Identity filter (`extractEmailDomain` / `isEmailAllowed`) -/

/-- Index of the last occurrence of `c` (JS `String.prototype.lastIndexOf`,
with `none` for `-1`). -/
def lastIdxOf (c : Char) : List Char → Option Nat
  | [] => none
  | x :: xs =>
    match lastIdxOf c xs with
    | some i => some (i + 1)
    | none => if x = c then some 0 else none

/-- Embeds `extractEmailDomain` (`src/utils/validation.ts`): everything after the
last `@`, lower-cased; `""` when there is no `@`, the `@` is first or last,
another `@` precedes it, or the domain has no dot / a leading or trailing
dot. -/
def extractEmailDomain (email : String) : String :=
  let cs := email.data
  match lastIdxOf '@' cs with
  | none => ""
  | some atIndex =>
    if atIndex = 0 ∨ atIndex = cs.length - 1 then ""
    else
      let beforeAt := cs.take atIndex
      if beforeAt.contains '@' then ""
      else
        let domain := (cs.drop (atIndex + 1)).map Char.toLower
        if domain = [] ∨ domain.contains '.' = false ∨
            domain.head? = some '.' ∨ domain.getLast? = some '.' then ""
        else ⟨domain⟩

example : extractEmailDomain "User@Example.COM" = "example.com" := by decide
example : extractEmailDomain "user@@domain.com" = "" := by decide
example : extractEmailDomain "user@domain" = "" := by decide

/-- Embeds `parseEmailFilterList` (`src/utils/validation.ts`): semicolon-separated
entries, trimmed and lower-cased, empty ones dropped. -/
def parseEmailFilterList (envValue : Option String) : List String :=
  match envValue with
  | none => []
  | some env =>
    if jsTrim env = "" then []
    else ((splitOnChar ';' env.data).map (fun w => jsToLower (jsTrim ⟨w⟩))).filter
      (fun w => 0 < w.length)

structure EmailAllowResult where
  isAllowed : Bool
  reason : Option String := none
deriving Repr, DecidableEq

/-- Embeds `isEmailAllowed` (`src/utils/validation.ts`): block on invalid domain,
then address blacklist, then domain blacklist, then (when configured)
domain whitelist. -/
def isEmailAllowed (email : String)
    (domainWhitelist domainBlacklist emailBlacklist : Option String) : EmailAllowResult :=
  let emailLower := jsToLower email
  let domain := extractEmailDomain emailLower
  if domain = "" then ⟨false, some "Invalid email format"⟩
  else
    let whitelistedDomains := parseEmailFilterList domainWhitelist
    let blacklistedDomains := parseEmailFilterList domainBlacklist
    let blacklistedEmails := parseEmailFilterList emailBlacklist
    if blacklistedEmails.contains emailLower then ⟨false, some "Email address is blacklisted"⟩
    else if blacklistedDomains.contains domain then ⟨false, some "Email domain is blacklisted"⟩
    else if 0 < whitelistedDomains.length ∧ whitelistedDomains.contains domain = false then
      ⟨false, some "Email domain is not in whitelist"⟩
    else ⟨true, none⟩

example :
    isEmailAllowed "Spammer@Good.com" (some "good.com") none (some "spammer@good.com") =
      ⟨false, some "Email address is blacklisted"⟩ := by decide

example :
    isEmailAllowed "a@bad.com" (some "bad.com") (some "bad.com") none =
      ⟨false, some "Email domain is blacklisted"⟩ := by decide

/-! ## Rate-limit engine (`UpstashRateLimitService`, `src/services/email.ts`)

The Redis collaborator is modelled as a counter table plus two failure
flags: `failGet` makes every read raise (Redis unreachable during a
check), `failIncr` makes every pipelined increment raise.  `redis.get`
yields the stored value or `null`; the source immediately applies `|| 0`,
so absent and zero counters coincide and `Nat`-valued counters are a
faithful model.  Timestamps (`Date.now()`) are epoch milliseconds. -/

structure DimensionConfig where
  enabled : Bool
  limit : Nat
  window : Nat
deriving Repr, DecidableEq

inductive FailureMode where
  | modeOpen
  | modeClosed
deriving Repr, DecidableEq

/-- Embeds `RateLimitConfig` (`src/types.ts`), including the
`redisFailureMode: open | closed` field. -/
structure RateLimitConfig where
  global : DimensionConfig
  ip : DimensionConfig
  email : DimensionConfig
  redisFailureMode : FailureMode
deriving Repr, DecidableEq

/-- Embeds `RateLimitResult` (`src/types.ts`). -/
structure RateLimitResult where
  allowed : Bool
  reason : Option String := none
  resetTime : Option Nat := none
  remaining : Option Nat := none
deriving Repr, DecidableEq

/-- The Upstash Redis counter store. -/
structure Store where
  counters : String → Nat
  ttls : String → Option Nat
  failGet : Bool
  failIncr : Bool

def Store.get (st : Store) (key : String) : Except Unit Nat :=
  if st.failGet then .error () else .ok (st.counters key)

/-- Counter key: `golab:${type}:${identifier}:${windowStart}`. -/
def rlKey (type identifier : String) (windowStart : Nat) : String :=
  "golab:" ++ type ++ ":" ++ identifier ++ ":" ++ toString windowStart

/-- Embeds `UpstashRateLimitService.checkLimit`: fixed window
`Math.floor(now / 1000 / window) * window`, deny at `current >= limit`
with the window end (in ms) as reset time, and allow (fail open) when the
Redis read errors — the `catch` ignores `redisFailureMode`. -/
def checkLimit (st : Store) (type identifier : String) (limit window now : Nat) :
    RateLimitResult :=
  let windowStart := now / 1000 / window * window
  let key := rlKey type identifier windowStart
  match st.get key with
  | .error _ => { allowed := true }
  | .ok current =>
    if limit ≤ current then
      { allowed := false
        reason := some ("Rate limit exceeded for " ++ type)
        resetTime := some ((windowStart + window) * 1000)
        remaining := some 0 }
    else
      { allowed := true, remaining := some (limit - current) }

/-- Embeds `UpstashRateLimitService.checkRateLimit`: run the enabled dimension
checks (global, then IP, then lower-cased sender email), allow when none
is enabled, otherwise return the first failed check.  Each `checkLimit`
already catches its own Redis error, so the outer `catch` never fires. -/
def checkRateLimit (st : Store) (config : RateLimitConfig) (ip email : String) (now : Nat) :
    RateLimitResult :=
  let checks :=
    (if config.global.enabled then
      [checkLimit st "global" "all" config.global.limit config.global.window now] else []) ++
    (if config.ip.enabled then
      [checkLimit st "ip" ip config.ip.limit config.ip.window now] else []) ++
    (if config.email.enabled then
      [checkLimit st "email" (jsToLower email) config.email.limit config.email.window now]
     else [])
  if checks.isEmpty then { allowed := true }
  else
    match checks.find? (fun r => !r.allowed) with
    | some failedCheck => failedCheck
    | none => { allowed := true }

/-- Embeds `UpstashRateLimitService.incrementCounter`: pipelined
`INCR key; EXPIRE key (window + 60)`; a Redis error is caught and leaves
the counters untouched. -/
def incrementCounter (st : Store) (type identifier : String) (window now : Nat) : Store :=
  let windowStart := now / 1000 / window * window
  let key := rlKey type identifier windowStart
  let ttl := window + 60
  if st.failIncr then st
  else
    { st with
      counters := fun k => if k = key then st.counters key + 1 else st.counters k
      ttls := fun k => if k = key then some ttl else st.ttls k }

/-- Embeds `UpstashRateLimitService.incrementCounters`: increment every enabled
dimension (the dimensions use distinct keys, so the `Promise.all` fan-out
is modelled sequentially); all errors are caught and swallowed. -/
def incrementCounters (st : Store) (config : RateLimitConfig) (ip email : String) (now : Nat) :
    Store :=
  let st1 := if config.global.enabled then
    incrementCounter st "global" "all" config.global.window now else st
  let st2 := if config.ip.enabled then
    incrementCounter st1 "ip" ip config.ip.window now else st1
  if config.email.enabled then
    incrementCounter st2 "email" (jsToLower email) config.email.window now else st2

/-! ## Attachments (`src/utils/attachments.ts`) -/

/-- Embeds `RESEND_UNSUPPORTED_EXTENSIONS` (already lower-case in the source). -/
def RESEND_UNSUPPORTED_EXTENSIONS : List String :=
  [".adp", ".app", ".asp", ".bas", ".bat",
   ".cer", ".chm", ".cmd", ".com", ".cpl",
   ".crt", ".csh", ".der", ".exe", ".fxp",
   ".gadget", ".hlp", ".hta", ".inf", ".ins",
   ".isp", ".its", ".js", ".jse", ".ksh",
   ".lib", ".lnk", ".mad", ".maf", ".mag",
   ".mam", ".maq", ".mar", ".mas", ".mat",
   ".mau", ".mav", ".maw", ".mda", ".mdb",
   ".mde", ".mdt", ".mdw", ".mdz", ".msc",
   ".msh", ".msh1", ".msh2", ".mshxml", ".msh1xml",
   ".msh2xml", ".msi", ".msp", ".mst", ".ops",
   ".pcd", ".pif", ".plg", ".prf", ".prg",
   ".reg", ".scf", ".scr", ".sct", ".shb",
   ".shs", ".sys", ".ps1", ".ps1xml", ".ps2",
   ".ps2xml", ".psc1", ".psc2", ".tmp", ".url",
   ".vb", ".vbe", ".vbs", ".vps", ".vsmacros",
   ".vss", ".vst", ".vsw", ".vxd", ".ws",
   ".wsc", ".wsf", ".wsh", ".xnk"]

/-- Embeds `AttachmentsConfig` (`src/utils/attachments.ts`). -/
structure AttachmentsConfig where
  enabled : Bool
  maxSizeBytes : Nat
  whitelist : List String
  blacklist : List String
deriving Repr, DecidableEq

/-- Embeds `AttachmentPayload` (`src/types.ts`). -/
structure AttachmentPayload where
  filename : String
  contentType : String
  content : String
deriving Repr, DecidableEq

/-- Embeds `base64ByteLength`: strip whitespace, require base64 characters with at
most two trailing `=` and a length divisible by 4, then
`len * 3 / 4 - padding`; `-1` on a malformed string. -/
def base64ByteLength (b64 : String) : Int :=
  let str := b64.data.filter (fun c => !wsChar c)
  let trailingEq := (str.reverse.takeWhile (fun c => c = '=')).length
  let core := str.take (str.length - trailingEq)
  if ¬ (trailingEq ≤ 2 ∧ core.all (fun c => c.isAlphanum || c = '+' || c = '/')) then -1
  else if str.length % 4 ≠ 0 then -1
  else
    let padding : Nat :=
      if str.reverse.take 2 = ['=', '='] then 2
      else if str.reverse.take 1 = ['='] then 1 else 0
    ((str.length * 3) / 4 : Int) - padding

example : base64ByteLength "SGVsbG8=" = 5 := by decide
example : base64ByteLength "e30=" = 2 := by decide
example : base64ByteLength "a===" = -1 := by decide

/-- Embeds `getExtension`: the lower-cased suffix from the last dot (inclusive),
`""` when there is no dot or the name ends in one. -/
def getExtension (filename : String) : String :=
  match lastIdxOf '.' filename.data with
  | none => ""
  | some idx =>
    if idx = filename.data.length - 1 then ""
    else jsToLower ⟨filename.data.drop idx⟩

def isUnsupportedExtension (filename : String) : Bool :=
  let ext := getExtension filename
  if ext = "" then false
  else RESEND_UNSUPPORTED_EXTENSIONS.contains ext

/-- Embeds `isMimeAllowed`: blacklist beats whitelist; a non-empty whitelist must
contain the MIME type. -/
def isMimeAllowed (mime : String) (whitelist blacklist : List String) : Bool :=
  let m := jsToLower (jsTrim mime)
  if m = "" then false
  else if blacklist.contains m then false
  else if 0 < whitelist.length ∧ whitelist.contains m = false then false
  else true

inductive AttachmentValidationResult where
  | ok (value : AttachmentPayload)
  | fail (errors : List VErr)
deriving Repr, DecidableEq

/-- A candidate attachment object; each field is `some s` when the JSON
value is the string `s` (a missing or non-string value behaves as `""`
after the `typeof` guard in the source). -/
structure AttCandidate where
  filename : Option String
  contentType : Option String
  content : Option String
deriving Repr

/-- Embeds `validateAndNormalizeAttachment`: required-field errors first (early
return), then extension blacklist, MIME whitelist/blacklist with reason
disambiguation, and base64 shape / decoded-size checks. -/
def validateAndNormalizeAttachment (candidate : Option AttCandidate)
    (config : AttachmentsConfig) : AttachmentValidationResult :=
  match candidate with
  | none => .fail [⟨"attachment", "Invalid attachment object"⟩]
  | some obj =>
    let filename := match obj.filename with | some s => jsTrim s | none => ""
    let contentType := match obj.contentType with | some s => jsToLower (jsTrim s) | none => ""
    let content := match obj.content with | some s => jsTrim s | none => ""
    let reqErrors :=
      (if filename = "" then [⟨"attachment.filename", "Filename is required"⟩] else []) ++
      (if contentType = "" then
        [⟨"attachment.contentType", "Content type (MIME) is required"⟩] else []) ++
      (if content = "" then [⟨"attachment.content", "Base64 content is required"⟩] else [])
    if reqErrors ≠ [] then .fail reqErrors
    else
      let extErrors :=
        if isUnsupportedExtension filename then
          [⟨"attachment.filename", "File extension is not supported by the email provider"⟩]
        else []
      let mimeErrors :=
        if isMimeAllowed contentType config.whitelist config.blacklist then []
        else if config.blacklist.contains contentType then
          [⟨"attachment.contentType", "MIME type is blacklisted"⟩]
        else if 0 < config.whitelist.length ∧ config.whitelist.contains contentType = false then
          [⟨"attachment.contentType", "MIME type is not in whitelist"⟩]
        else [⟨"attachment.contentType", "Invalid MIME type"⟩]
      let size := base64ByteLength content
      let sizeErrors :=
        if size < 0 then [⟨"attachment.content", "Invalid Base64 content"⟩]
        else if (config.maxSizeBytes : Int) < size then
          [⟨"attachment.content",
            "Attachment exceeds maximum size of " ++ toString config.maxSizeBytes ++ " bytes"⟩]
        else []
      let errors := extErrors ++ mimeErrors ++ sizeErrors
      if errors ≠ [] then .fail errors
      else .ok ⟨filename, contentType, content⟩

example :
    validateAndNormalizeAttachment
      (some ⟨some "hello.txt", some "text/plain", some "SGVsbG8="⟩)
      ⟨true, 10485760, [], []⟩ = .ok ⟨"hello.txt", "text/plain", "SGVsbG8="⟩ := by decide

/-! ## Request handler (`handleContactSubmission`, `src/handlers/contact.ts`)

The Hono context is modelled by its observable pieces: the environment
variables the handler reads, the presented `X-API-Key` header, the parsed
JSON body (`none` when `c.req.json()` rejects) and the client IP computed
by `extractRealIP`.  The Notifier collaborator is a pair of functions
giving `sendEmail` / `sendAutoReply` results — `ResendEmailService`
catches its own exceptions and resolves to `false`, so `Bool` results are
the complete behaviour.  `RATE_LIMITING_ENABLED` is the build-time flag and
`rlService` the outcome of `createRateLimitService` (`none` when Redis is
not configured or every dimension is disabled). -/

structure Env where
  apiKey : Option String := none
  bannedWords : Option String := none
  domainWhitelist : Option String := none
  domainBlacklist : Option String := none
  emailBlacklist : Option String := none
  enableAutoReply : Option String := none

structure ReqModel where
  apiKeyHeader : Option String
  body : Option RawInput
  ip : String

structure Collab where
  send : ContactFormData → Bool
  autoReply : ContactFormData → Bool

/-- The JSON response produced by `createSuccessResponse` /
`createErrorResponse` (CORS headers aside). -/
structure HandlerResp where
  status : Nat
  error : Option String := none
  details : List VErr := []
  success : Bool := false
  message : Option String := none
deriving Repr, DecidableEq

/-- The response together with the observable side effects of the handler:
whether (and with which result) `sendEmail` ran, whether
`incrementCounters` ran, whether `sendAutoReply` ran, and the resulting
counter store. -/
structure HandlerTrace where
  resp : HandlerResp
  sendResult : Option Bool
  incremented : Bool
  autoReplied : Bool
  store : Store

/-- A trace for a request halted before `sendEmail`: only the response is
produced, no side effect has happened. -/
def haltTrace (st : Store) (resp : HandlerResp) : HandlerTrace :=
  { resp := resp, sendResult := none, incremented := false, autoReplied := false, store := st }

/-- Embeds `handleContactSubmission`: API key → JSON parse → schema validation →
banned words → identity filter → rate-limit check → send → counter
increment → best-effort auto-reply → success response. -/
def handleContactSubmission (emailCheck : String → Bool) (rateLimitingEnabled : Bool)
    (rlService : Option RateLimitConfig) (env : Env) (req : ReqModel) (collab : Collab)
    (now : Nat) (st : Store) : HandlerTrace :=
  let apiKeyValidation := validateApiKey req.apiKeyHeader env.apiKey
  if apiKeyValidation.isValid = false then
    haltTrace st { status := 401, error := some "Unauthorized",
                   details := [⟨"authentication", apiKeyValidation.error.getD ""⟩] }
  else
    match req.body with
    | none =>
      haltTrace st { status := 400, error := some "Invalid JSON payload" }
    | some requestData =>
      match validateContactForm emailCheck requestData with
      | .fail errs =>
        haltTrace st { status := 400, error := some "Validation failed", details := errs }
      | .ok formData =>
        if containsBannedWords formData env.bannedWords then
          haltTrace st { status := 400,
                         error := some "Message contains inappropriate content and cannot be sent" }
        else
          let emailFilterResult := isEmailAllowed formData.email env.domainWhitelist
            env.domainBlacklist env.emailBlacklist
          if emailFilterResult.isAllowed = false then
            haltTrace st { status := 400, error := some "Email address is not allowed",
                           details := [⟨"email",
                             emailFilterResult.reason.getD "Email address is not allowed"⟩] }
          else
            let rlSvc := if rateLimitingEnabled then rlService else none
            let rateLimitResult := match rlSvc with
              | some config => checkRateLimit st config req.ip formData.email now
              | none => { allowed := true }
            if rateLimitResult.allowed = false then
              haltTrace st { status := 429, error := some "Rate limit exceeded",
                             details := [⟨"rate_limit",
                               rateLimitResult.reason.getD
                                 "Too many requests. Please try again later."⟩] }
            else
              let emailSent := collab.send formData
              if emailSent = false then
                { resp := { status := 500,
                            error := some "Failed to send email. Please try again later." },
                  sendResult := some false, incremented := false, autoReplied := false,
                  store := st }
              else
                let st2 := match rlSvc with
                  | some config => incrementCounters st config req.ip formData.email now
                  | none => st
                -- sendAutoReply runs only when ENABLE_AUTO_REPLY is "true";
                -- its result and any exception are logged and discarded.
                let autoReplied := jsToLower (env.enableAutoReply.getD "") = "true"
                { resp := { status := 200, success := true,
                            message := some "Your message has been sent successfully!" },
                  sendResult := some true, incremented := rlSvc.isSome,
                  autoReplied := autoReplied, store := st2 }

/-! ## Helper lemmas -/

lemma isEmpty_append {α : Type} (l₁ l₂ : List α) :
    (l₁ ++ l₂).isEmpty = (l₁.isEmpty && l₂.isEmpty) := by
  cases l₁ <;> simp

lemma isEmpty_ite_nil {α : Type} (c : Prop) [Decidable c] (l : List α) :
    (if c then ([] : List α) else l).isEmpty = (decide c || l.isEmpty) := by
  split_ifs with h <;> simp [h]

lemma isEmpty_ite_nil' {α : Type} (c : Prop) [Decidable c] (l : List α) :
    (if c then l else ([] : List α)).isEmpty = (!decide c || l.isEmpty) := by
  split_ifs with h <;> simp [h]

/-- The strict-schema error list for a fully-present input is empty exactly
when there is no extra key and every raw-length check (and the e-mail
format check) passes. -/
lemma validate_errs_empty_iff (check : String → Bool) (em su me : String)
    (extra : List String) :
    (strictErrs extra ++ emailFieldErrs check (some em) ++ subjectFieldErrs (some su)
      ++ messageFieldErrs (some me)).isEmpty = true ↔
      (extra = [] ∧ 1 ≤ em.length ∧ check em = true ∧ em.length ≤ EMAIL_MAX_LENGTH ∧
       1 ≤ su.length ∧ su.length ≤ SUBJECT_MAX_LENGTH ∧
       MESSAGE_MIN_LENGTH ≤ me.length ∧ me.length ≤ MESSAGE_MAX_LENGTH) := by
  simp only [strictErrs, emailFieldErrs, subjectFieldErrs, messageFieldErrs, isEmpty_append,
    isEmpty_ite_nil, isEmpty_ite_nil']
  simp [Nat.not_lt, List.isEmpty_iff, and_assoc, Nat.one_le_iff_ne_zero]
  have hmm : MESSAGE_MIN_LENGTH ≤ me.length → ¬ me.length = 0 := by
    intro h hn
    rw [hn] at h
    simp [MESSAGE_MIN_LENGTH] at h
  tauto

lemma validate_ok_iff (check : String → Bool) (em su me : String) (extra : List String) :
    (validateContactForm check ⟨some em, some su, some me, extra⟩).isOk = true ↔
      (extra = [] ∧ 1 ≤ em.length ∧ check em = true ∧ em.length ≤ EMAIL_MAX_LENGTH ∧
       1 ≤ su.length ∧ su.length ≤ SUBJECT_MAX_LENGTH ∧
       MESSAGE_MIN_LENGTH ≤ me.length ∧ me.length ≤ MESSAGE_MAX_LENGTH) := by
  simp only [validateContactForm]
  split_ifs with h
  · exact iff_of_true rfl ((validate_errs_empty_iff check em su me extra).mp h)
  · exact iff_of_false (by simp [ValidationOutcome.isOk])
      (fun hc => h ((validate_errs_empty_iff check em su me extra).mpr hc))

lemma validate_ok_data (check : String → Bool) (em su me : String) (extra : List String)
    (d : ContactFormData)
    (h : validateContactForm check ⟨some em, some su, some me, extra⟩ = .ok d) :
    d = ⟨em, jsTrim su, jsTrim me⟩ := by
  simp only [validateContactForm] at h
  split_ifs at h
  injection h with h1
  exact h1.symm

lemma mem_errors_of_mem (check : String → Bool) (em su me : String) (extra : List String)
    (e : VErr)
    (he : e ∈ strictErrs extra ++ emailFieldErrs check (some em) ++ subjectFieldErrs (some su)
      ++ messageFieldErrs (some me)) :
    e ∈ (validateContactForm check ⟨some em, some su, some me, extra⟩).errors := by
  simp only [validateContactForm]
  split_ifs with h
  · rw [List.isEmpty_iff] at h
    simp_all
  · simpa [ValidationOutcome.errors] using he

/-- With any unrecognised key present, validation fails and reports the
`unrecognized_keys` issue. -/
lemma validate_fail_of_extra (check : String → Bool) (raw : RawInput)
    (h : raw.extraKeys ≠ []) :
    (validateContactForm check raw).isOk = false ∧
      (⟨"", "Unrecognized key(s) in object: " ++ String.intercalate ", " raw.extraKeys⟩ : VErr) ∈
        (validateContactForm check raw).errors := by
  obtain ⟨oe, os, om, extra⟩ := raw
  simp only at h
  have hs : strictErrs extra =
      [⟨"", "Unrecognized key(s) in object: " ++ String.intercalate ", " extra⟩] := by
    cases extra with
    | nil => exact absurd rfl h
    | cons a as => simp [strictErrs]
  cases oe <;> cases os <;> cases om <;>
    simp_all [validateContactForm, ValidationOutcome.isOk, ValidationOutcome.errors,
      isEmpty_append, hs]

/-! ## C2 and C3: validator claims -/

/-- C2 counterexample: `validateContactForm` accepts a whitespace-only
subject (the zod `.trim()` runs after the `min`/`max` length checks), so a
subject that is empty after trimming is *not* rejected — it is returned as
`""`. -/
theorem whitespace_subject_accepted :
    validateContactForm (fun s => s = "test@example.com")
      ⟨some "test@example.com", some "   ",
       some "aaaaaaaaaaaaaaaaaaaaaaaaaaaaaaaaaaaaaaaaaaaaaaaaaa", []⟩ =
    .ok ⟨"test@example.com", "", "aaaaaaaaaaaaaaaaaaaaaaaaaaaaaaaaaaaaaaaaaaaaaaaaaa"⟩ := by
  decide

/-- C2 (amended): `validateContactForm` applies the configured length
limits (`SUBJECT_MAX_LENGTH`, `MESSAGE_MIN_LENGTH`, `MESSAGE_MAX_LENGTH`)
to the *raw, untrimmed* subject and body, and only trims them in the
returned data; in particular a whitespace-only subject or body that meets
the raw length bounds is accepted and comes back as the empty string. -/
theorem trim_after_length_checks (check : String → Bool) (em su me : String)
    (extra : List String) :
    ((validateContactForm check ⟨some em, some su, some me, extra⟩).isOk = true ↔
      (extra = [] ∧ 1 ≤ em.length ∧ check em = true ∧ em.length ≤ EMAIL_MAX_LENGTH ∧
       1 ≤ su.length ∧ su.length ≤ SUBJECT_MAX_LENGTH ∧
       MESSAGE_MIN_LENGTH ≤ me.length ∧ me.length ≤ MESSAGE_MAX_LENGTH)) ∧
    (∀ d : ContactFormData,
      validateContactForm check ⟨some em, some su, some me, extra⟩ = .ok d →
        d = ⟨em, jsTrim su, jsTrim me⟩) :=
  ⟨validate_ok_iff check em su me extra, fun d => validate_ok_data check em su me extra d⟩

theorem trim_after_length_checks_witness :
    (validateContactForm (fun s => s = "a@b.co")
      ⟨some "a@b.co", some " padded ", some " 0123456789 ", []⟩).isOk = true ∧
    (⟨"a@b.co", "padded", "0123456789"⟩ : ContactFormData) =
      ⟨"a@b.co", jsTrim " padded ", jsTrim " 0123456789 "⟩ := by
  have h := trim_after_length_checks (fun s => s = "a@b.co") "a@b.co" " padded " " 0123456789 " []
  exact ⟨h.1.mpr (by decide), h.2 ⟨"a@b.co", "padded", "0123456789"⟩ (by decide)⟩

/-- C3: with a well-formed email and subject, a message whose raw length
lies in `[MESSAGE_MIN_LENGTH, MESSAGE_MAX_LENGTH]` validates, and a
message of length `MESSAGE_MIN_LENGTH - 1` or `MESSAGE_MAX_LENGTH + 1`
fails with a validation error on the `message` field. -/
theorem message_length_boundaries (check : String → Bool) (em su me : String)
    (hem : check em = true) (hemlen : 1 ≤ em.length ∧ em.length ≤ EMAIL_MAX_LENGTH)
    (hsu : 1 ≤ su.length ∧ su.length ≤ SUBJECT_MAX_LENGTH) :
    (MESSAGE_MIN_LENGTH ≤ me.length ∧ me.length ≤ MESSAGE_MAX_LENGTH →
      (validateContactForm check ⟨some em, some su, some me, []⟩).isOk = true) ∧
    (me.length = MESSAGE_MIN_LENGTH - 1 ∨ me.length = MESSAGE_MAX_LENGTH + 1 →
      (validateContactForm check ⟨some em, some su, some me, []⟩).isOk = false ∧
      ∃ e ∈ (validateContactForm check ⟨some em, some su, some me, []⟩).errors,
        e.field = "message") := by
  constructor
  · intro hl
    exact (validate_ok_iff check em su me []).mpr
      ⟨rfl, hemlen.1, hem, hemlen.2, hsu.1, hsu.2, hl.1, hl.2⟩
  · intro hb
    have hnotok : ¬ ((validateContactForm check ⟨some em, some su, some me, []⟩).isOk = true) := by
      intro hc
      obtain ⟨-, -, -, -, -, -, hminle, hmaxle⟩ := (validate_ok_iff check em su me []).mp hc
      rcases hb with hb | hb <;> rw [hb] at hminle hmaxle <;>
        simp [MESSAGE_MIN_LENGTH, MESSAGE_MAX_LENGTH] at hminle hmaxle
    refine ⟨by cases hh : (validateContactForm check ⟨some em, some su, some me, []⟩).isOk with
      | true => exact absurd hh hnotok
      | false => rfl, ?_⟩
    rcases hb with hb | hb
    · refine ⟨⟨"message",
        "Message must be at least " ++ toString MESSAGE_MIN_LENGTH ++ " characters long"⟩,
        mem_errors_of_mem check em su me [] _ ?_, rfl⟩
      have h1 : ¬ me.length < 1 := by rw [hb]; norm_num [MESSAGE_MIN_LENGTH]
      have h2 : me.length < MESSAGE_MIN_LENGTH := by rw [hb]; norm_num [MESSAGE_MIN_LENGTH]
      have h3 : ¬ MESSAGE_MAX_LENGTH < me.length := by
        rw [hb]; norm_num [MESSAGE_MIN_LENGTH, MESSAGE_MAX_LENGTH]
      simp [messageFieldErrs, h1, h2, h3]
    · refine ⟨⟨"message",
        "Message must be less than " ++ toString MESSAGE_MAX_LENGTH ++ " characters"⟩,
        mem_errors_of_mem check em su me [] _ ?_, rfl⟩
      have h1 : ¬ me.length < 1 := by rw [hb]; norm_num [MESSAGE_MAX_LENGTH]
      have h2 : ¬ me.length < MESSAGE_MIN_LENGTH := by
        rw [hb]; norm_num [MESSAGE_MIN_LENGTH, MESSAGE_MAX_LENGTH]
      have h3 : MESSAGE_MAX_LENGTH < me.length := by rw [hb]; norm_num [MESSAGE_MAX_LENGTH]
      simp [messageFieldErrs, h1, h2, h3]

theorem message_length_boundaries_witness :
    (validateContactForm (fun s => s = "a@b.co")
      ⟨some "a@b.co", some "Hi", some "012345678", []⟩).isOk = false ∧
    ∃ e ∈ (validateContactForm (fun s => s = "a@b.co")
      ⟨some "a@b.co", some "Hi", some "012345678", []⟩).errors, e.field = "message" :=
  (message_length_boundaries (fun s => s = "a@b.co") "a@b.co" "Hi" "012345678"
    (by decide) (by decide) (by decide)).2 (Or.inl (by decide))

/-! ## C10: strict schema at the handler level -/

/-- C10: any input object with a key beyond `email`/`subject`/`message`
(the `attachment` key included) fails validation with an
unrecognized-keys error, and the handler answers 400 "Validation failed"
without ever invoking `sendEmail`. -/
theorem extra_keys_rejected (check : String → Bool) (rlE : Bool)
    (rlS : Option RateLimitConfig) (env : Env) (req : ReqModel) (collab : Collab)
    (now : Nat) (st : Store) (raw : RawInput)
    (hauth : (validateApiKey req.apiKeyHeader env.apiKey).isValid = true)
    (hbody : req.body = some raw) (hextra : raw.extraKeys ≠ []) :
    (validateContactForm check raw).isOk = false ∧
    (⟨"", "Unrecognized key(s) in object: " ++ String.intercalate ", " raw.extraKeys⟩ : VErr) ∈
      (validateContactForm check raw).errors ∧
    (handleContactSubmission check rlE rlS env req collab now st).resp.status = 400 ∧
    (handleContactSubmission check rlE rlS env req collab now st).resp.error =
      some "Validation failed" ∧
    (handleContactSubmission check rlE rlS env req collab now st).sendResult = none := by
  obtain ⟨hok, hmem⟩ := validate_fail_of_extra check raw hextra
  have hfail : ∃ errs, validateContactForm check raw = .fail errs := by
    cases hv : validateContactForm check raw with
    | ok d => rw [hv] at hok; cases hok
    | fail errs => exact ⟨errs, rfl⟩
  obtain ⟨errs, hV⟩ := hfail
  have hred : handleContactSubmission check rlE rlS env req collab now st =
      haltTrace st { status := 400, error := some "Validation failed", details := errs } := by
    simp [handleContactSubmission, hauth, hbody, hV]
  exact ⟨hok, hmem, by simp [hred, haltTrace], by simp [hred, haltTrace],
    by simp [hred, haltTrace]⟩

theorem extra_keys_rejected_witness :
    (validateContactForm (fun s => s = "test@example.com")
      ⟨some "test@example.com", some "Test", some "0123456789", ["attachment"]⟩).isOk = false ∧
    (⟨"", "Unrecognized key(s) in object: " ++ String.intercalate ", " ["attachment"]⟩ : VErr) ∈
      (validateContactForm (fun s => s = "test@example.com")
        ⟨some "test@example.com", some "Test", some "0123456789", ["attachment"]⟩).errors ∧
    (handleContactSubmission (fun s => s = "test@example.com") false none {}
      ⟨none, some ⟨some "test@example.com", some "Test", some "0123456789", ["attachment"]⟩,
        "1.2.3.4"⟩
      ⟨fun _ => true, fun _ => true⟩ 0
      ⟨fun _ => 0, fun _ => none, false, false⟩).resp.status = 400 ∧
    (handleContactSubmission (fun s => s = "test@example.com") false none {}
      ⟨none, some ⟨some "test@example.com", some "Test", some "0123456789", ["attachment"]⟩,
        "1.2.3.4"⟩
      ⟨fun _ => true, fun _ => true⟩ 0
      ⟨fun _ => 0, fun _ => none, false, false⟩).resp.error = some "Validation failed" ∧
    (handleContactSubmission (fun s => s = "test@example.com") false none {}
      ⟨none, some ⟨some "test@example.com", some "Test", some "0123456789", ["attachment"]⟩,
        "1.2.3.4"⟩
      ⟨fun _ => true, fun _ => true⟩ 0
      ⟨fun _ => 0, fun _ => none, false, false⟩).sendResult = none :=
  extra_keys_rejected (fun s => s = "test@example.com") false none {}
    ⟨none, some ⟨some "test@example.com", some "Test", some "0123456789", ["attachment"]⟩,
      "1.2.3.4"⟩
    ⟨fun _ => true, fun _ => true⟩ 0 ⟨fun _ => 0, fun _ => none, false, false⟩
    ⟨some "test@example.com", some "Test", some "0123456789", ["attachment"]⟩
    (by decide) rfl (by decide)

/-! ## C6: the authentication gate -/

/-- C6 counterexample: the claim promises a 401 whenever a *non-empty* API
key is configured and the header is missing.  With `API_KEY = " "`
(non-empty, whitespace only) `validateApiKey` treats the key as not
configured, so a request without any `X-API-Key` header passes the gate
and reaches a 200 success. -/
theorem whitespace_api_key_skips_auth :
    (handleContactSubmission (fun s => s = "test@example.com") false none
      { apiKey := some " " }
      ⟨none, some ⟨some "test@example.com", some "Test", some "0123456789", []⟩, "1.2.3.4"⟩
      ⟨fun _ => true, fun _ => true⟩ 0
      ⟨fun _ => 0, fun _ => none, false, false⟩).resp.status = 200 := by
  decide

/-- C6 (amended): when the configured API key is non-empty *after
trimming*, every request whose `X-API-Key` header is missing or differs
(case-sensitively) from the key is answered 401 with error "Unauthorized"
and an `authentication` detail, and `sendEmail` is never invoked.  The
body is universally quantified — a malformed or invalid body still yields
the 401, because the gate precedes JSON parsing and validation. -/
theorem api_key_gate (check : String → Bool) (rlE : Bool) (rlS : Option RateLimitConfig)
    (env : Env) (req : ReqModel) (collab : Collab) (now : Nat) (st : Store) (k : String)
    (hk : env.apiKey = some k) (hne : jsTrim k ≠ "")
    (hmiss : req.apiKeyHeader = none ∨ ∃ p, req.apiKeyHeader = some p ∧ p ≠ k) :
    (handleContactSubmission check rlE rlS env req collab now st).resp.status = 401 ∧
    (handleContactSubmission check rlE rlS env req collab now st).resp.error =
      some "Unauthorized" ∧
    (∃ e ∈ (handleContactSubmission check rlE rlS env req collab now st).resp.details,
      e.field = "authentication") ∧
    (handleContactSubmission check rlE rlS env req collab now st).sendResult = none := by
  have hv : (validateApiKey req.apiKeyHeader env.apiKey).isValid = false := by
    rcases hmiss with h | ⟨p, hp, hpk⟩
    · simp [validateApiKey, hk, h, hne]
    · simp only [validateApiKey, hk, hp]
      split_ifs <;> simp_all
  have hred : handleContactSubmission check rlE rlS env req collab now st =
      haltTrace st { status := 401, error := some "Unauthorized",
                     details := [⟨"authentication",
                       (validateApiKey req.apiKeyHeader env.apiKey).error.getD ""⟩] } := by
    simp [handleContactSubmission, hv]
  refine ⟨by simp [hred, haltTrace], by simp [hred, haltTrace], ?_, by simp [hred, haltTrace]⟩
  exact ⟨⟨"authentication", (validateApiKey req.apiKeyHeader env.apiKey).error.getD ""⟩,
    by simp [hred, haltTrace], rfl⟩

theorem api_key_gate_witness :
    (handleContactSubmission (fun s => s = "test@example.com") false none
      { apiKey := some "secret-key" }
      ⟨none, none, "1.2.3.4"⟩ ⟨fun _ => true, fun _ => true⟩ 0
      ⟨fun _ => 0, fun _ => none, false, false⟩).resp.status = 401 ∧
    (handleContactSubmission (fun s => s = "test@example.com") false none
      { apiKey := some "secret-key" }
      ⟨none, none, "1.2.3.4"⟩ ⟨fun _ => true, fun _ => true⟩ 0
      ⟨fun _ => 0, fun _ => none, false, false⟩).resp.error = some "Unauthorized" ∧
    (∃ e ∈ (handleContactSubmission (fun s => s = "test@example.com") false none
      { apiKey := some "secret-key" }
      ⟨none, none, "1.2.3.4"⟩ ⟨fun _ => true, fun _ => true⟩ 0
      ⟨fun _ => 0, fun _ => none, false, false⟩).resp.details, e.field = "authentication") ∧
    (handleContactSubmission (fun s => s = "test@example.com") false none
      { apiKey := some "secret-key" }
      ⟨none, none, "1.2.3.4"⟩ ⟨fun _ => true, fun _ => true⟩ 0
      ⟨fun _ => 0, fun _ => none, false, false⟩).sendResult = none :=
  api_key_gate (fun s => s = "test@example.com") false none { apiKey := some "secret-key" }
    ⟨none, none, "1.2.3.4"⟩ ⟨fun _ => true, fun _ => true⟩ 0
    ⟨fun _ => 0, fun _ => none, false, false⟩ "secret-key" rfl (by decide) (Or.inl rfl)

/-! ## C4: the content filter -/

lemma splitOnChar_subset (sep : Char) :
    ∀ (l : List Char), ∀ p ∈ splitOnChar sep l, p ⊆ l := by
  intro l
  induction l with
  | nil =>
    intro p hp
    simp only [splitOnChar, List.mem_singleton] at hp
    simp [hp]
  | cons c cs ih =>
    intro p hp
    simp only [splitOnChar] at hp
    split_ifs at hp with hc
    · rcases List.mem_cons.mp hp with h | h
      · simp [h]
      · exact (ih p h).trans (List.subset_cons_self c cs)
    · cases hsp : splitOnChar sep cs with
      | nil =>
        rw [hsp] at hp
        simp only [List.mem_singleton] at hp
        subst hp
        intro x hx
        simp only [List.mem_singleton] at hx
        simp [hx]
      | cons q qs =>
        rw [hsp] at hp
        rcases List.mem_cons.mp hp with h | h
        · subst h
          refine List.cons_subset.mpr ⟨List.mem_cons_self c cs, ?_⟩
          exact ((ih q (hsp ▸ List.mem_cons_self q qs)).trans (List.subset_cons_self c cs))
        · exact ((ih p (hsp ▸ List.mem_cons_of_mem q h)).trans (List.subset_cons_self c cs))

lemma all_ws_of_trimChars_nil (l : List Char) (h : trimChars l = []) :
    ∀ c ∈ l, wsChar c = true := by
  unfold trimChars at h
  rw [List.reverse_eq_nil_iff, List.dropWhile_eq_nil_iff] at h
  intro c hc
  rw [← List.takeWhile_append_dropWhile (p := wsChar) (l := l)] at hc
  rcases List.mem_append.mp hc with h1 | h1
  · exact List.mem_takeWhile_imp h1
  · exact h c (List.mem_reverse.mpr h1)

lemma trimChars_nil_of_all_ws (l : List Char) (h : ∀ c ∈ l, wsChar c = true) :
    trimChars l = [] := by
  unfold trimChars
  rw [List.dropWhile_eq_nil_iff.mpr h]
  rfl

lemma parseBannedWords_eq_nil (bw : String) (h : jsTrim bw = "") :
    parseBannedWords bw = [] := by
  have hall : ∀ c ∈ bw.data, wsChar c = true := by
    apply all_ws_of_trimChars_nil
    have hdata : (jsTrim bw).data = ("" : String).data := by rw [h]
    simpa [jsTrim] using hdata
  unfold parseBannedWords
  rw [List.filter_eq_nil_iff]
  intro w hw
  rcases List.mem_map.mp hw with ⟨p, hp, rfl⟩
  have hpw : ∀ c ∈ p, wsChar c = true :=
    fun c hc => hall c (splitOnChar_subset ';' bw.data p hp hc)
  have ht : trimChars p = [] := trimChars_nil_of_all_ws p hpw
  simp [jsToLower, jsTrim, ht]

lemma containsBannedWords_of_field (data : ContactFormData) (bw w : String)
    (hw : w ∈ parseBannedWords bw)
    (hsub : w.data <:+: (jsToLower data.email).data ∨
      w.data <:+: (jsToLower data.subject).data ∨
      w.data <:+: (jsToLower data.message).data) :
    containsBannedWords data (some bw) = true := by
  have htrim : ¬ (jsTrim bw = "") := fun h => by
    rw [parseBannedWords_eq_nil bw h] at hw
    cases hw
  have hne : (parseBannedWords bw).isEmpty = false := by
    cases hpb : parseBannedWords bw with
    | nil => rw [hpb] at hw; cases hw
    | cons a as => rfl
  simp only [containsBannedWords]
  rw [if_neg htrim]
  rw [hne]
  simp only [Bool.false_eq_true, if_false]
  rw [List.any_eq_true]
  refine ⟨w, hw, ?_⟩
  simp only [jsIncludes, decide_eq_true_eq]
  have hcontent :
      (jsToLower ⟨data.email.data ++ ' ' :: data.subject.data ++ ' ' :: data.message.data⟩).data =
      (jsToLower data.email).data ++ ' ' :: (jsToLower data.subject).data ++
        ' ' :: (jsToLower data.message).data := by
    simp [jsToLower, List.map_append]
  rw [hcontent]
  rcases hsub with h | h | h
  · exact h.trans ⟨[], ' ' :: (jsToLower data.subject).data ++ ' ' :: (jsToLower data.message).data,
      by simp⟩
  · exact h.trans ⟨(jsToLower data.email).data ++ [' '],
      ' ' :: (jsToLower data.message).data, by simp⟩
  · exact h.trans ⟨(jsToLower data.email).data ++ ' ' :: (jsToLower data.subject).data ++ [' '],
      [], by simp⟩

/-- C4: whenever the (semicolon-separated, whitespace-tolerant) banned-word
list contains a token that occurs case-insensitively inside the validated
sender address, subject or message, the handler halts with HTTP 400,
error exactly "Message contains inappropriate content and cannot be
sent", and `sendEmail` is never invoked. -/
theorem banned_word_halts (check : String → Bool) (rlE : Bool) (rlS : Option RateLimitConfig)
    (env : Env) (req : ReqModel) (collab : Collab) (now : Nat) (st : Store)
    (raw : RawInput) (data : ContactFormData) (bw w : String)
    (hbw : env.bannedWords = some bw)
    (hauth : (validateApiKey req.apiKeyHeader env.apiKey).isValid = true)
    (hbody : req.body = some raw)
    (hval : validateContactForm check raw = .ok data)
    (hw : w ∈ parseBannedWords bw)
    (hsub : w.data <:+: (jsToLower data.email).data ∨
      w.data <:+: (jsToLower data.subject).data ∨
      w.data <:+: (jsToLower data.message).data) :
    (handleContactSubmission check rlE rlS env req collab now st).resp.status = 400 ∧
    (handleContactSubmission check rlE rlS env req collab now st).resp.error =
      some "Message contains inappropriate content and cannot be sent" ∧
    (handleContactSubmission check rlE rlS env req collab now st).sendResult = none := by
  have hcb : containsBannedWords data env.bannedWords = true :=
    hbw ▸ containsBannedWords_of_field data bw w hw hsub
  have hred : handleContactSubmission check rlE rlS env req collab now st =
      haltTrace st { status := 400,
                     error := some "Message contains inappropriate content and cannot be sent" } := by
    simp [handleContactSubmission, hauth, hbody, hval, hcb]
  exact ⟨by simp [hred, haltTrace], by simp [hred, haltTrace], by simp [hred, haltTrace]⟩

theorem banned_word_halts_witness :
    (handleContactSubmission (fun s => s = "test@example.com") false none
      { bannedWords := some "spam; scam" }
      ⟨none, some ⟨some "test@example.com", some "Free SPAM offer", some "0123456789", []⟩,
        "1.2.3.4"⟩
      ⟨fun _ => true, fun _ => true⟩ 0
      ⟨fun _ => 0, fun _ => none, false, false⟩).resp.status = 400 ∧
    (handleContactSubmission (fun s => s = "test@example.com") false none
      { bannedWords := some "spam; scam" }
      ⟨none, some ⟨some "test@example.com", some "Free SPAM offer", some "0123456789", []⟩,
        "1.2.3.4"⟩
      ⟨fun _ => true, fun _ => true⟩ 0
      ⟨fun _ => 0, fun _ => none, false, false⟩).resp.error =
      some "Message contains inappropriate content and cannot be sent" ∧
    (handleContactSubmission (fun s => s = "test@example.com") false none
      { bannedWords := some "spam; scam" }
      ⟨none, some ⟨some "test@example.com", some "Free SPAM offer", some "0123456789", []⟩,
        "1.2.3.4"⟩
      ⟨fun _ => true, fun _ => true⟩ 0
      ⟨fun _ => 0, fun _ => none, false, false⟩).sendResult = none :=
  banned_word_halts (fun s => s = "test@example.com") false none
    { bannedWords := some "spam; scam" }
    ⟨none, some ⟨some "test@example.com", some "Free SPAM offer", some "0123456789", []⟩,
      "1.2.3.4"⟩
    ⟨fun _ => true, fun _ => true⟩ 0 ⟨fun _ => 0, fun _ => none, false, false⟩
    ⟨some "test@example.com", some "Free SPAM offer", some "0123456789", []⟩
    ⟨"test@example.com", "Free SPAM offer", "0123456789"⟩ "spam; scam" "spam"
    rfl (by decide) rfl (by decide) (by decide) (Or.inr (Or.inl (by decide)))

/-! ## C5: identity-filter priority -/

/-- C5: for a sender address whose (lower-cased) domain extracts
successfully, `isEmailAllowed` applies its rules in strict priority order:
address blacklist, then domain blacklist, then (when configured and
non-empty) domain whitelist, otherwise allowed; and the decision only
depends on the address up to letter case. -/
theorem identity_filter_priority (email : String) (wl bl ebl : Option String)
    (hdom : extractEmailDomain (jsToLower email) ≠ "") :
    ((parseEmailFilterList ebl).contains (jsToLower email) = true →
      isEmailAllowed email wl bl ebl = ⟨false, some "Email address is blacklisted"⟩) ∧
    ((parseEmailFilterList ebl).contains (jsToLower email) = false →
      (parseEmailFilterList bl).contains (extractEmailDomain (jsToLower email)) = true →
      isEmailAllowed email wl bl ebl = ⟨false, some "Email domain is blacklisted"⟩) ∧
    ((parseEmailFilterList ebl).contains (jsToLower email) = false →
      (parseEmailFilterList bl).contains (extractEmailDomain (jsToLower email)) = false →
      parseEmailFilterList wl ≠ [] →
      (parseEmailFilterList wl).contains (extractEmailDomain (jsToLower email)) = false →
      isEmailAllowed email wl bl ebl = ⟨false, some "Email domain is not in whitelist"⟩) ∧
    ((parseEmailFilterList ebl).contains (jsToLower email) = false →
      (parseEmailFilterList bl).contains (extractEmailDomain (jsToLower email)) = false →
      (parseEmailFilterList wl = [] ∨
        (parseEmailFilterList wl).contains (extractEmailDomain (jsToLower email)) = true) →
      isEmailAllowed email wl bl ebl = ⟨true, none⟩) ∧
    (∀ e2 : String, jsToLower email = jsToLower e2 →
      isEmailAllowed email wl bl ebl = isEmailAllowed e2 wl bl ebl) := by
  refine ⟨?_, ?_, ?_, ?_, ?_⟩
  · intro h1
    have h1m : jsToLower email ∈ parseEmailFilterList ebl := by simpa using h1
    simp [isEmailAllowed, hdom, h1m]
  · intro h1 h2
    have h1m : jsToLower email ∉ parseEmailFilterList ebl := by simpa using h1
    have h2m : extractEmailDomain (jsToLower email) ∈ parseEmailFilterList bl := by
      simpa using h2
    simp [isEmailAllowed, hdom, h1m, h2m]
  · intro h1 h2 h3 h4
    have h1m : jsToLower email ∉ parseEmailFilterList ebl := by simpa using h1
    have h2m : extractEmailDomain (jsToLower email) ∉ parseEmailFilterList bl := by
      simpa using h2
    have h4m : extractEmailDomain (jsToLower email) ∉ parseEmailFilterList wl := by
      simpa using h4
    have hlen : 0 < (parseEmailFilterList wl).length := List.length_pos.mpr h3
    simp [isEmailAllowed, hdom, h1m, h2m, h4m, hlen]
  · intro h1 h2 h3
    have h1m : jsToLower email ∉ parseEmailFilterList ebl := by simpa using h1
    have h2m : extractEmailDomain (jsToLower email) ∉ parseEmailFilterList bl := by
      simpa using h2
    rcases h3 with h3 | h3
    · simp [isEmailAllowed, hdom, h1m, h2m, h3]
    · have h3m : extractEmailDomain (jsToLower email) ∈ parseEmailFilterList wl := by
        simpa using h3
      simp [isEmailAllowed, hdom, h1m, h2m, h3m]
  · intro e2 he
    simp only [isEmailAllowed, he]

theorem identity_filter_priority_witness :
    isEmailAllowed "Spammer@Good.com" (some "good.com") none (some "spammer@good.com") =
      ⟨false, some "Email address is blacklisted"⟩ :=
  (identity_filter_priority "Spammer@Good.com" (some "good.com") none
    (some "spammer@good.com") (by decide)).1 (by decide)

/-! ## C1: Redis-failure behaviour of `checkRateLimit` -/

/-- C1 (code bug): `checkRateLimit` ignores `redisFailureMode`.  When every
Redis read errors, each per-dimension `checkLimit` catches the error and
returns `allowed`, so the overall check is admitted even under
`redisFailureMode = closed` — the repository tests
(`tests/rate-limit.test.ts`, "should fail closed when Redis is unavailable
and failure mode is set to closed") and README expect a denial with reason
"Rate limit exceeded" instead. -/
theorem redis_failure_always_fail_open :
    checkRateLimit ⟨fun _ => 0, fun _ => none, true, false⟩
      ⟨⟨true, 10, 3600⟩, ⟨false, 5, 3600⟩, ⟨true, 1, 3600⟩, .modeClosed⟩
      "192.168.1.1" "test@example.com" 1700000000000 = { allowed := true } ∧
    checkRateLimit ⟨fun _ => 0, fun _ => none, true, false⟩
      ⟨⟨true, 10, 3600⟩, ⟨false, 5, 3600⟩, ⟨true, 1, 3600⟩, .modeOpen⟩
      "192.168.1.1" "test@example.com" 1700000000000 = { allowed := true } := by
  exact ⟨rfl, rfl⟩

/-! ## C7: counters are incremented only after a successful send -/

lemma checkRateLimit_failIncr (st : Store) (b : Bool) (cfg : RateLimitConfig)
    (ip email : String) (now : Nat) :
    checkRateLimit { st with failIncr := b } cfg ip email now =
      checkRateLimit st cfg ip email now := rfl

/-- C7: with rate limiting enabled and a rate-limit service configured,
`incrementCounters` runs exactly when `sendEmail` reported success; a
failed send produces the 500 delivery error with no counter change; and
the response is unaffected by whether the counter increments succeed or
fail (`failIncr`). -/
theorem increment_only_after_send (check : String → Bool) (env : Env) (req : ReqModel)
    (collab : Collab) (now : Nat) (st : Store) (cfg : RateLimitConfig) :
    ((handleContactSubmission check true (some cfg) env req collab now st).incremented = true ↔
      (handleContactSubmission check true (some cfg) env req collab now st).sendResult =
        some true) ∧
    ((handleContactSubmission check true (some cfg) env req collab now st).sendResult =
        some false →
      (handleContactSubmission check true (some cfg) env req collab now st).resp.status = 500 ∧
      (handleContactSubmission check true (some cfg) env req collab now st).resp.error =
        some "Failed to send email. Please try again later." ∧
      (handleContactSubmission check true (some cfg) env req collab now st).incremented =
        false ∧
      (handleContactSubmission check true (some cfg) env req collab now st).store = st) ∧
    (∀ b₁ b₂ : Bool,
      (handleContactSubmission check true (some cfg) env req collab now
        { st with failIncr := b₁ }).resp =
      (handleContactSubmission check true (some cfg) env req collab now
        { st with failIncr := b₂ }).resp) := by
  by_cases h1 : (validateApiKey req.apiKeyHeader env.apiKey).isValid = false
  · simp [handleContactSubmission, h1, haltTrace]
  · cases hb : req.body with
    | none => simp [handleContactSubmission, h1, hb, haltTrace]
    | some raw =>
      cases hv : validateContactForm check raw with
      | fail errs => simp [handleContactSubmission, h1, hb, hv, haltTrace]
      | ok data =>
        by_cases hcb : containsBannedWords data env.bannedWords
        · simp [handleContactSubmission, h1, hb, hv, hcb, haltTrace]
        · by_cases hea : (isEmailAllowed data.email env.domainWhitelist env.domainBlacklist
            env.emailBlacklist).isAllowed = false
          · simp [handleContactSubmission, h1, hb, hv, hcb, hea, haltTrace]
          · by_cases hrl : (checkRateLimit st cfg req.ip data.email now).allowed = false
            · simp [handleContactSubmission, checkRateLimit_failIncr, h1, hb, hv, hcb, hea,
                hrl, haltTrace]
            · by_cases hs : collab.send data = false
              · simp [handleContactSubmission, checkRateLimit_failIncr, h1, hb, hv, hcb, hea,
                  hrl, hs, haltTrace]
              · simp [handleContactSubmission, checkRateLimit_failIncr, h1, hb, hv, hcb, hea,
                  hrl, hs, haltTrace]

theorem increment_only_after_send_witness :
    (handleContactSubmission (fun s => s = "test@example.com") true
      (some ⟨⟨true, 10, 3600⟩, ⟨false, 5, 3600⟩, ⟨true, 1, 3600⟩, .modeOpen⟩) {}
      ⟨none, some ⟨some "test@example.com", some "Test", some "0123456789", []⟩, "1.2.3.4"⟩
      ⟨fun _ => false, fun _ => true⟩ 0
      ⟨fun _ => 0, fun _ => none, false, false⟩).resp.status = 500 ∧
    (handleContactSubmission (fun s => s = "test@example.com") true
      (some ⟨⟨true, 10, 3600⟩, ⟨false, 5, 3600⟩, ⟨true, 1, 3600⟩, .modeOpen⟩) {}
      ⟨none, some ⟨some "test@example.com", some "Test", some "0123456789", []⟩, "1.2.3.4"⟩
      ⟨fun _ => false, fun _ => true⟩ 0
      ⟨fun _ => 0, fun _ => none, false, false⟩).resp.error =
      some "Failed to send email. Please try again later." ∧
    (handleContactSubmission (fun s => s = "test@example.com") true
      (some ⟨⟨true, 10, 3600⟩, ⟨false, 5, 3600⟩, ⟨true, 1, 3600⟩, .modeOpen⟩) {}
      ⟨none, some ⟨some "test@example.com", some "Test", some "0123456789", []⟩, "1.2.3.4"⟩
      ⟨fun _ => false, fun _ => true⟩ 0
      ⟨fun _ => 0, fun _ => none, false, false⟩).incremented = false ∧
    (handleContactSubmission (fun s => s = "test@example.com") true
      (some ⟨⟨true, 10, 3600⟩, ⟨false, 5, 3600⟩, ⟨true, 1, 3600⟩, .modeOpen⟩) {}
      ⟨none, some ⟨some "test@example.com", some "Test", some "0123456789", []⟩, "1.2.3.4"⟩
      ⟨fun _ => false, fun _ => true⟩ 0
      ⟨fun _ => 0, fun _ => none, false, false⟩).store =
      ⟨fun _ => 0, fun _ => none, false, false⟩ :=
  (increment_only_after_send (fun s => s = "test@example.com") {}
    ⟨none, some ⟨some "test@example.com", some "Test", some "0123456789", []⟩, "1.2.3.4"⟩
    ⟨fun _ => false, fun _ => true⟩ 0 ⟨fun _ => 0, fun _ => none, false, false⟩
    ⟨⟨true, 10, 3600⟩, ⟨false, 5, 3600⟩, ⟨true, 1, 3600⟩, .modeOpen⟩).2.1 (by decide)

/-! ## C8: fixed-window admission arithmetic -/

/-- A sequence of requests inside one fixed window, each consisting of a
`checkLimit` admission check followed — on admission, modelling a
successful send — by the matching `incrementCounter`. -/
def windowDecisions (type identifier : String) (limit window now : Nat) :
    Nat → Store → List Bool
  | 0, _ => []
  | Nat.succ n, st =>
    let r := checkLimit st type identifier limit window now
    if r.allowed then
      true :: windowDecisions type identifier limit window now n
        (incrementCounter st type identifier window now)
    else false :: windowDecisions type identifier limit window now n st

lemma windowDecisions_replicate (type identifier : String) (limit window now : Nat) :
    ∀ (k c : Nat) (st : Store), st.failGet = false → st.failIncr = false →
      st.counters (rlKey type identifier (now / 1000 / window * window)) = c →
      limit = c + k →
      windowDecisions type identifier limit window now (k + 1) st =
        List.replicate k true ++ [false] := by
  intro k
  induction k with
  | zero =>
    intro c st hg hi hc hl
    have hle : limit ≤ st.counters (rlKey type identifier (now / 1000 / window * window)) := by
      omega
    simp [windowDecisions, checkLimit, Store.get, hg, hle]
  | succ n ih =>
    intro c st hg hi hc hl
    have hlt : ¬ (limit ≤ st.counters (rlKey type identifier
        (now / 1000 / window * window))) := by omega
    have hck : (checkLimit st type identifier limit window now).allowed = true := by
      simp [checkLimit, Store.get, hg, hlt]
    have hstep : ∀ (m : Nat) (s : Store),
        windowDecisions type identifier limit window now (m + 1) s =
          if (checkLimit s type identifier limit window now).allowed then
            true :: windowDecisions type identifier limit window now m
              (incrementCounter s type identifier window now)
          else false :: windowDecisions type identifier limit window now m s :=
      fun m s => rfl
    rw [hstep (n + 1) st, if_pos hck]
    rw [ih (c + 1) (incrementCounter st type identifier window now)
      (by simp [incrementCounter, hi, hg]) (by simp [incrementCounter, hi])
      (by simp [incrementCounter, hi, hc]) (by omega)]
    simp [List.replicate_succ]

/-- C8: `checkLimit` reads the counter of the fixed window
`floor(now/1000/window) * window`, admits exactly while that counter is
below the limit, reports the window end `(windowStart + window) * 1000`
(epoch ms) as reset time on denial, and — starting from a fresh window —
admits exactly `limit` check-and-increment rounds before denying the
`(limit+1)`-th. -/
theorem fixed_window_limit (type identifier : String) (limit window now : Nat) (st : Store)
    (c : Nat) (hg : st.failGet = false) (hi : st.failIncr = false)
    (hc : st.counters (rlKey type identifier (now / 1000 / window * window)) = c) :
    ((checkLimit st type identifier limit window now).allowed = decide (c < limit)) ∧
    (limit ≤ c → (checkLimit st type identifier limit window now).resetTime =
      some ((now / 1000 / window * window + window) * 1000)) ∧
    (c = 0 → windowDecisions type identifier limit window now (limit + 1) st =
      List.replicate limit true ++ [false]) := by
  refine ⟨?_, ?_, ?_⟩
  · by_cases h : limit ≤ c
    · simp [checkLimit, Store.get, hg, hc, h, Nat.not_lt.mpr h]
    · have hlt : c < limit := Nat.lt_of_not_le h
      simp [checkLimit, Store.get, hg, hc, h, hlt]
  · intro h
    simp [checkLimit, Store.get, hg, hc, h]
  · intro h0
    exact windowDecisions_replicate type identifier limit window now limit 0 st hg hi
      (h0 ▸ hc) (by omega)

theorem fixed_window_limit_witness :
    ((checkLimit ⟨fun _ => 0, fun _ => none, false, false⟩ "email" "a@b.co" 2 3600
      1699999999999).allowed = decide (0 < 2)) ∧
    ((checkLimit ⟨fun _ => 2, fun _ => none, false, false⟩ "email" "a@b.co" 2 3600
      1699999999999).resetTime =
      some ((1699999999999 / 1000 / 3600 * 3600 + 3600) * 1000)) ∧
    (windowDecisions "email" "a@b.co" 2 3600 1699999999999 (2 + 1)
      ⟨fun _ => 0, fun _ => none, false, false⟩ = List.replicate 2 true ++ [false]) :=
  ⟨(fixed_window_limit "email" "a@b.co" 2 3600 1699999999999
      ⟨fun _ => 0, fun _ => none, false, false⟩ 0 rfl rfl rfl).1,
   (fixed_window_limit "email" "a@b.co" 2 3600 1699999999999
      ⟨fun _ => 2, fun _ => none, false, false⟩ 2 rfl rfl rfl).2.1 (by decide),
   (fixed_window_limit "email" "a@b.co" 2 3600 1699999999999
      ⟨fun _ => 0, fun _ => none, false, false⟩ 0 rfl rfl rfl).2.2 rfl⟩

/-! ## C9: attachment size limit -/

/-- The outcome of the attachment stage: the HTTP status, the validation
details and whether the Notifier was invoked. -/
structure AttachmentStageTrace where
  status : Nat
  error : Option String
  errors : List VErr
  sent : Bool
deriving Repr, DecidableEq

/-- Modelled from the spec: the attachment-enabled handler stage.  The
attachment-enabled `handleContactSubmission` is not under `src/` (the
handler there predates attachments and its strict schema rejects the
`attachment` key; only `src/utils/attachments.ts` and the attachment tests
are present).  Per §4.2/§6/§8 of the spec and `tests/attachments.test.ts`,
when attachments are enabled and a submission carries one, the pipeline
runs `validateAndNormalizeAttachment` and, on failure, responds HTTP 400
("Validation failed" with the attachment errors as details) without
invoking the Notifier; otherwise the send proceeds. -/
def attachmentStage (config : AttachmentsConfig) (candidate : Option AttCandidate)
    (sendOk : Bool) : AttachmentStageTrace :=
  match validateAndNormalizeAttachment candidate config with
  | .fail errs => ⟨400, some "Validation failed", errs, false⟩
  | .ok _ =>
    if sendOk then ⟨200, none, [], true⟩
    else ⟨500, some "Failed to send email. Please try again later.", [], true⟩

/-- Substring fact: the size-violation message produced by
`validateAndNormalizeAttachment` contains "exceeds maximum size" for every
configured limit. -/
lemma exceeds_size_message_substring (n : Nat) :
    jsIncludes ("Attachment exceeds maximum size of " ++ toString n ++ " bytes")
      "exceeds maximum size" = true := by
  simp only [jsIncludes, decide_eq_true_eq]
  have h1 : ("exceeds maximum size").data <:+: ("Attachment exceeds maximum size of ").data := by
    decide
  have h2 : ("Attachment exceeds maximum size of ").data <:+:
      ("Attachment exceeds maximum size of " ++ toString n ++ " bytes").data := by
    rw [String.data_append, String.data_append, List.append_assoc]
    exact (List.prefix_append _ _).isInfix
  exact h1.trans h2

/-- C9: for every attachments configuration and every request whose
attachment carries a filename, a MIME type and base64 content (the inbound
attachment shape, so the size check is reached) with decoded byte length
exceeding the configured `ATTACHMENTS_MAX_FILE_SIZE_BYTES`, the stage
answers HTTP 400 with a detail message containing "exceeds maximum size",
and the email is not sent. -/
theorem oversized_attachment_rejected (config : AttachmentsConfig) (sendOk : Bool)
    (filename contentType content : String)
    (hf : jsTrim filename ≠ "") (hm : jsToLower (jsTrim contentType) ≠ "")
    (hcn : jsTrim content ≠ "")
    (hsize : (config.maxSizeBytes : Int) < base64ByteLength (jsTrim content)) :
    (attachmentStage config (some ⟨some filename, some contentType, some content⟩)
      sendOk).status = 400 ∧
    (∃ e ∈ (attachmentStage config (some ⟨some filename, some contentType, some content⟩)
        sendOk).errors, jsIncludes e.message "exceeds maximum size" = true) ∧
    (attachmentStage config (some ⟨some filename, some contentType, some content⟩)
      sendOk).sent = false := by
  have hnneg : ¬ (base64ByteLength (jsTrim content) < 0) := by
    have h0 : (0 : Int) ≤ (config.maxSizeBytes : Int) := Int.natCast_nonneg _
    omega
  refine ⟨?_, ?_, ?_⟩
  · simp [attachmentStage, validateAndNormalizeAttachment, hf, hm, hcn, hnneg, hsize]
  · refine ⟨⟨"attachment.content", "Attachment exceeds maximum size of " ++
      toString config.maxSizeBytes ++ " bytes"⟩, ?_,
      exceeds_size_message_substring config.maxSizeBytes⟩
    simp [attachmentStage, validateAndNormalizeAttachment, hf, hm, hcn, hnneg, hsize]
  · simp [attachmentStage, validateAndNormalizeAttachment, hf, hm, hcn, hnneg, hsize]

theorem oversized_attachment_rejected_witness :
    base64ByteLength "SGVsbG8=" = 5 ∧
    ((attachmentStage ⟨true, 3, [], []⟩
      (some ⟨some "hello.txt", some "text/plain", some "SGVsbG8="⟩) true).status = 400 ∧
    (∃ e ∈ (attachmentStage ⟨true, 3, [], []⟩
        (some ⟨some "hello.txt", some "text/plain", some "SGVsbG8="⟩) true).errors,
      jsIncludes e.message "exceeds maximum size" = true) ∧
    (attachmentStage ⟨true, 3, [], []⟩
      (some ⟨some "hello.txt", some "text/plain", some "SGVsbG8="⟩) true).sent = false) :=
  ⟨by decide,
   oversized_attachment_rejected ⟨true, 3, [], []⟩ true "hello.txt" "text/plain" "SGVsbG8="
     (by decide) (by decide) (by decide) (by decide)⟩

end Golab
